import Mathlib

/-!
Verification of the guided-writing wizard `src/streamlit_app.py`.

The Python strings are modelled as `List Char` (one element per Python
character); the external collaborators (OpenAI chat calls, `json.loads`)
are parameters of the embedded functions, so every theorem quantifies over
their behaviour.
-/

namespace NewsWrt

/-- A Python string, one `Char` per Python character. -/
abbrev Str := List Char

/-- The whitespace set stripped by Python `str.strip()` and matched by the
regex class `\s` (ASCII whitespace plus the Unicode whitespace code points). -/
def isPyWS (c : Char) : Bool :=
  c = ' ' || c = '\t' || c = '\n' || c = '\r' ||
  c.toNat = 0x0B || c.toNat = 0x0C ||
  (0x1C ≤ c.toNat && c.toNat ≤ 0x1F) ||
  c.toNat = 0x85 || c.toNat = 0xA0 || c.toNat = 0x1680 ||
  (0x2000 ≤ c.toNat && c.toNat ≤ 0x200A) ||
  c.toNat = 0x2028 || c.toNat = 0x2029 || c.toNat = 0x202F ||
  c.toNat = 0x205F || c.toNat = 0x3000

/-- Test whether `s` starts with `pat`. -/
def startsWithL : Str → Str → Bool
  | [], _ => true
  | _ :: _, [] => false
  | p :: ps, c :: cs => p == c && startsWithL ps cs

/-- Python `pat in s` (substring containment). -/
def containsSubL (pat : Str) : Str → Bool
  | [] => startsWithL pat []
  | s@(_ :: rest) => startsWithL pat s || containsSubL pat rest

/-- Index of the leftmost occurrence of `pat` in `s`, if any. -/
def findSubL (pat : Str) : Str → Option Nat
  | [] => if startsWithL pat [] then some 0 else none
  | s@(_ :: rest) =>
    if startsWithL pat s then some 0 else (findSubL pat rest).map (· + 1)

/-- One left-to-right pass of Python `s.replace(pat, repl)` (the scan resumes
after each replacement; the replacement text is not rescanned).  The source
only calls it with the non-empty literals `"```json\n"` and `"\n```"`. -/
def replaceAux (pat repl : Str) : Nat → Str → Str
  | 0, s => s
  | _ + 1, [] => []
  | fuel + 1, s@(c :: rest) =>
    if pat ≠ [] && startsWithL pat s then
      repl ++ replaceAux pat repl fuel (s.drop pat.length)
    else
      c :: replaceAux pat repl fuel rest

/-- Python `s.replace(pat, repl)` for non-empty `pat`. -/
def pyReplaceL (s pat repl : Str) : Str := replaceAux pat repl s.length s

/-- Python `s.strip()`: drop leading and trailing whitespace. -/
def pyStripL (s : Str) : Str :=
  ((s.dropWhile isPyWS).reverse.dropWhile isPyWS).reverse

/-- Python `str.strip()` lifted to Lean `String`s. -/
def pyStripS (s : String) : String := String.mk (pyStripL s.data)

/-- The opening fence marker `"```json"` tested by `"```json" in response_text`. -/
def fenceOpen : Str := "```json".data

/-- The literal `"```json\n"` removed by the first fallback `replace`. -/
def fenceOpenNl : Str := "```json\n".data

/-- The literal `"\n```"`: the closing-fence part of the regex and the
second fallback `replace`. -/
def fenceCloseNl : Str := "\n```".data

/-- One backtracking attempt of `\s*\n(.*?)\n``` ` after the literal
`` ```json ``: with `\s*` consuming exactly `m` characters, the next
character must be `'\n'`, and the non-greedy group runs up to the leftmost
following `"\n```"`.  `rest` is the text after the matched `` ```json ``. -/
def fenceAttempt (rest : Str) (m : Nat) : Option Str :=
  if rest.get? m = some '\n' then
    (findSubL fenceCloseNl (rest.drop (m + 1))).map
      (fun j => (rest.drop (m + 1)).take j)
  else none

/-- Try `\s*` lengths `m, m-1, …, 0` in the backtracking order of the
regex engine; the first length whose continuation matches wins. -/
def fenceTryKs (rest : Str) : Nat → Option Str
  | 0 => fenceAttempt rest 0
  | m + 1 =>
    match fenceAttempt rest (m + 1) with
    | some g => some g
    | none => fenceTryKs rest m

/-- Complete the regex match after an occurrence of `` ```json ``:
`rest` is the text following the marker. -/
def fenceMatchAfter (rest : Str) : Option Str :=
  fenceTryKs rest (rest.takeWhile isPyWS).length

/-- Model of the `re.search` call with pattern `` ```json\s*\n(.*?)\n``` ``
under `re.DOTALL`, returning group 1 of the leftmost match. -/
def searchFenceAux : Str → Option Str
  | [] => none
  | s@(_ :: rest) =>
    if startsWithL fenceOpen s then
      match fenceMatchAfter (s.drop fenceOpen.length) with
      | some g => some g
      | none => searchFenceAux rest
    else searchFenceAux rest

/-- The string handed to `json.loads` by `parse_gpt_json_response`
(the local `json_str`): the fenced group when the regex matches, the
double-`replace` fallback when the marker is present without a match,
and the trimmed raw text otherwise. -/
def json_str_of (s : Str) : Str :=
  if containsSubL fenceOpen s then
    match searchFenceAux s with
    | some g => pyStripL g
    | none => pyStripL (pyReplaceL (pyReplaceL s fenceOpenNl []) fenceCloseNl [])
  else pyStripL s

/-- Result of `parse_gpt_json_response`: either the decoded value or the
error record `\x7b"error": msg, "raw_response": raw\x7d`. -/
inductive ParseResult (α : Type) where
  | ok (v : α)
  | err (msg : String) (raw : Str)
  deriving DecidableEq

/-- Model of `parse_gpt_json_response(response_text)`.  Here `loads` is `json.loads`:
`Except.error e` is a raised `json.JSONDecodeError` with description `e`. -/
def parse_gpt_json_response {α : Type} (loads : Str → Except String α) (s : Str) :
    ParseResult α :=
  match loads (json_str_of s) with
  | .ok v => .ok v
  | .error e => .err ("JSON 파싱 실패: " ++ e) s

/-- The `fence_wrap` of the round-trip property: `"```json\n" + t + "\n```"`. -/
def fence_wrap (t : Str) : Str := fenceOpenNl ++ t ++ fenceCloseNl

lemma dropWhile_eq_self_of_head (p : Char → Bool) (t : Str)
    (h : ∀ c, t.head? = some c → p c = false) : t.dropWhile p = t := by
  cases t with
  | nil => rfl
  | cons c rest => simp [List.dropWhile, h c rfl]

/-- Python `str.strip()` is the identity on a string whose two ends are not
whitespace. -/
lemma pyStripL_eq_self (t : Str)
    (hhead : ∀ c, t.head? = some c → isPyWS c = false)
    (hlast : ∀ c, t.getLast? = some c → isPyWS c = false) :
    pyStripL t = t := by
  unfold pyStripL
  rw [dropWhile_eq_self_of_head _ _ hhead,
      dropWhile_eq_self_of_head _ _ (by
        intro c hc
        exact hlast c (by rwa [List.head?_reverse] at hc)),
      List.reverse_reverse]

/-- The leftmost `"\n```"` in `t ++ "\n```"` is the appended one when `t`
contains no newline. -/
lemma findSub_close_append (t : Str) (hnl : ∀ c ∈ t, c ≠ '\n') :
    findSubL fenceCloseNl (t ++ fenceCloseNl) = some t.length := by
  induction t with
  | nil => rfl
  | cons c rest ih =>
    have hc : c ≠ '\n' := hnl c (by simp)
    have hbeq : ('\n' == c) = false := beq_eq_false_iff_ne.mpr (Ne.symm hc)
    have hsw : startsWithL fenceCloseNl (c :: (rest ++ fenceCloseNl)) = false := by
      rw [show startsWithL fenceCloseNl (c :: (rest ++ fenceCloseNl))
          = ('\n' == c && startsWithL "```".data (rest ++ fenceCloseNl)) from rfl,
        hbeq]
      simp
    simp only [List.cons_append, findSubL, List.append_eq, hsw, Bool.false_eq_true,
      if_false, ih (fun d hd => hnl d (by simp [hd])), Option.map_some]
    rfl

/-- A single search step: a match found at the head position wins. -/
lemma searchFenceAux_cons_pos (a : Char) (s' : Str) (g : Str)
    (h1 : startsWithL fenceOpen (a :: s') = true)
    (h2 : fenceMatchAfter ((a :: s').drop fenceOpen.length) = some g) :
    searchFenceAux (a :: s') = some g := by
  unfold searchFenceAux
  rw [if_pos h1, h2]

/-- Core of the round trip: the regex extracts exactly `t` from
`fence_wrap t` when `t` is non-empty, newline-free and has a
non-whitespace head. -/
lemma searchFence_fence_wrap (t : Str)
    (hnl : ∀ c ∈ t, c ≠ '\n')
    (hne : t ≠ [])
    (hhead : ∀ c, t.head? = some c → isPyWS c = false) :
    searchFenceAux (fence_wrap t) = some t := by
  obtain ⟨c, rest, rfl⟩ := List.exists_cons_of_ne_nil hne
  have hcws : isPyWS c = false := hhead c rfl
  have hcnl : c ≠ '\n' := hnl c (by simp)
  have hrun : (('\n' :: ((c :: rest) ++ fenceCloseNl)).takeWhile isPyWS).length = 1 := by
    rw [show ('\n' :: ((c :: rest) ++ fenceCloseNl)).takeWhile isPyWS
        = '\n' :: ((c :: (rest ++ fenceCloseNl)).takeWhile isPyWS) from rfl]
    simp [List.takeWhile_cons, hcws]
  have hattempt1 : fenceAttempt ('\n' :: ((c :: rest) ++ fenceCloseNl)) 1 = none := by
    unfold fenceAttempt
    rw [show ('\n' :: ((c :: rest) ++ fenceCloseNl)).get? 1 = some c from rfl,
      if_neg (by simp [hcnl])]
  have hattempt0 : fenceAttempt ('\n' :: ((c :: rest) ++ fenceCloseNl)) 0
      = some (c :: rest) := by
    unfold fenceAttempt
    rw [show ('\n' :: ((c :: rest) ++ fenceCloseNl)).get? 0 = some '\n' from rfl,
      if_pos rfl,
      show ('\n' :: ((c :: rest) ++ fenceCloseNl)).drop (0 + 1)
        = (c :: rest) ++ fenceCloseNl from rfl,
      findSub_close_append _ hnl]
    simp [List.take_left]
  have hmatch : fenceMatchAfter ('\n' :: ((c :: rest) ++ fenceCloseNl))
      = some (c :: rest) := by
    unfold fenceMatchAfter
    rw [hrun,
      show fenceTryKs ('\n' :: ((c :: rest) ++ fenceCloseNl)) 1
        = (match fenceAttempt ('\n' :: ((c :: rest) ++ fenceCloseNl)) 1 with
           | some g => some g
           | none => fenceTryKs ('\n' :: ((c :: rest) ++ fenceCloseNl)) 0) from rfl,
      hattempt1]
    show fenceTryKs ('\n' :: ((c :: rest) ++ fenceCloseNl)) 0 = some (c :: rest)
    exact hattempt0
  exact searchFenceAux_cons_pos _ _ _ rfl hmatch

/-- The branch of `json_str_of` taken on a fence-wrapped input. -/
lemma json_str_of_fence_wrap (t : Str)
    (hnl : ∀ c ∈ t, c ≠ '\n')
    (hne : t ≠ [])
    (hhead : ∀ c, t.head? = some c → isPyWS c = false)
    (hlast : ∀ c, t.getLast? = some c → isPyWS c = false) :
    json_str_of (fence_wrap t) = t := by
  unfold json_str_of
  rw [if_pos (show containsSubL fenceOpen (fence_wrap t) = true from rfl),
    searchFence_fence_wrap t hnl hne hhead]
  exact pyStripL_eq_self t hhead hlast

/-- C1: `parse_gpt_json_response` is total, and on every input whose
fence-stripped form fails strict JSON decoding it returns the error record
whose `raw_response` is the original input `S`, byte-for-byte (not the
fence-stripped intermediate `json_str_of S`). -/
theorem parse_total_failure_preserves_raw {α : Type}
    (loads : Str → Except String α) (S : Str) :
    (∀ e, loads (json_str_of S) = .error e →
      parse_gpt_json_response loads S = .err ("JSON 파싱 실패: " ++ e) S) ∧
    ((∃ v, parse_gpt_json_response loads S = .ok v) ∨
     (∃ m, parse_gpt_json_response loads S = .err m S)) := by
  constructor
  · intro e he
    unfold parse_gpt_json_response
    rw [he]
  · unfold parse_gpt_json_response
    cases loads (json_str_of S) with
    | ok v => exact Or.inl ⟨v, rfl⟩
    | error e => exact Or.inr ⟨_, rfl⟩

/-- Witness for C1 at the concrete input `"```json\nnotjson"`, whose
fence-stripped intermediate is `"notjson"`; the error record still carries
the full original text. -/
theorem parse_total_failure_preserves_raw_witness :
    parse_gpt_json_response (fun _ => (Except.error "w" : Except String Nat))
        "```json\nnotjson".data
      = .err ("JSON 파싱 실패: " ++ "w") "```json\nnotjson".data ∧
    json_str_of "```json\nnotjson".data = "notjson".data :=
  ⟨(parse_total_failure_preserves_raw (fun _ => (Except.error "w" : Except String Nat))
      "```json\nnotjson".data).1 "w" rfl, by decide⟩

/-- C2: round trip.  For every value `X`, if the encoder output
`encode X` is non-empty, newline-free (as `json.dumps` output is: newlines
inside strings are escaped) and has non-whitespace ends, and the decoder
inverts the encoder at `X`, then parsing the `"```json"`-fenced wrapping of
`encode X` returns exactly `X`. -/
theorem parse_round_trip {α : Type} (loads : Str → Except String α)
    (encode : α → Str) (X : α)
    (hnl : ∀ c ∈ encode X, c ≠ '\n')
    (hne : encode X ≠ [])
    (hhead : ∀ c, (encode X).head? = some c → isPyWS c = false)
    (hlast : ∀ c, (encode X).getLast? = some c → isPyWS c = false)
    (hdec : loads (encode X) = .ok X) :
    parse_gpt_json_response loads (fence_wrap (encode X)) = .ok X := by
  unfold parse_gpt_json_response
  rw [json_str_of_fence_wrap (encode X) hnl hne hhead hlast, hdec]

/-- Witness for C2 with the JSON document `"42"` decoding to `42`. -/
theorem parse_round_trip_witness :
    parse_gpt_json_response
        (fun s => if s = "42".data then Except.ok 42 else Except.error "bad")
        (fence_wrap "42".data)
      = .ok 42 :=
  parse_round_trip
    (fun s => if s = "42".data then Except.ok 42 else Except.error "bad")
    (fun _ => "42".data) 42
    (by decide) (by decide) (by decide) (by decide) rfl

/-- C8 counterexample: on `"```json 42"` the fence marker is present, the
regex finds no clean match, yet the fallback (which only removes the
newline-adjacent literals `"```json\n"` and `"\n```"`) leaves the bare
fence marker in the string handed to the decoder. -/
theorem fallback_marker_reaches_decoder :
    containsSubL fenceOpen "```json 42".data = true ∧
    searchFenceAux "```json 42".data = none ∧
    containsSubL fenceOpen (json_str_of "```json 42".data) = true := by
  decide

/-- C8 (amended): when the fence marker is present but the regex finds no
match, the string handed to the decoder is the input with all occurrences
of the literal `"```json\n"` and then of `"\n```"` removed (one
left-to-right pass each) and the result stripped of surrounding
whitespace; a fence marker not adjacent to a newline is not removed. -/
theorem fallback_strips_newline_adjacent_fences (S : Str)
    (hin : containsSubL fenceOpen S = true)
    (hnm : searchFenceAux S = none) :
    json_str_of S
      = pyStripL (pyReplaceL (pyReplaceL S fenceOpenNl []) fenceCloseNl []) := by
  unfold json_str_of
  rw [if_pos hin, hnm]

/-- Witness for the amended C8 at the concrete fallback input. -/
theorem fallback_strips_newline_adjacent_fences_witness :
    json_str_of "```json 42".data
      = pyStripL (pyReplaceL (pyReplaceL "```json 42".data fenceOpenNl [])
          fenceCloseNl []) :=
  fallback_strips_newline_adjacent_fences "```json 42".data (by decide) (by decide)

/-- Python `pat in s` on Lean `String`s. -/
def containsSubS (pat s : String) : Bool := containsSubL pat.data s.data

/-- Result dict of `summarize_text` and `translate_to_korean` is a plain
string; this section models the three guarded collaborator wrappers.  The
`chat` parameter stands for one `client.chat.completions.create` call
returning `response.choices[0].message.content`; `Except.error e` is a
raised exception with text `e`.  The constant prompt template wrapped
around the user text is absorbed into `chat` where it contains JSON
braces; for `summarize_text` and `translate_to_korean` the literal prompt
prefix is kept. -/
def summarize_text (openai_ok clientIsNone : Bool)
    (chat : String → Except String String) (text : String) : String :=
  if !openai_ok || clientIsNone then "요약 불가: API 오류"
  else if pyStripS text = "" then "요약 불가: 입력된 텍스트가 없습니다."
  else
    match chat ("다음 기사 내용을 영어로 다섯 문장 이상, 열문장 이하로 요약해줘:\n\n" ++ text) with
    | .ok r => pyStripS r
    | .error e => "요약 실패: " ++ e

/-- Model of `translate_to_korean(text)` (source lines 648-667). -/
def translate_to_korean (openai_ok clientIsNone : Bool)
    (chat : String → Except String String) (text : String) : String :=
  if !openai_ok || clientIsNone then "번역 불가: API 오류"
  else if containsSubS "요약 실패" text || containsSubS "요약 불가" text then
    "원본 요약이 없어 번역할 수 없습니다."
  else if pyStripS text = "" then "번역 불가: 입력된 텍스트가 없습니다."
  else
    match chat ("다음 영문 텍스트를 자연스러운 한국어로 번역해줘:\n\n" ++ text) with
    | .ok r => pyStripS r
    | .error e => "번역 실패: " ++ e

/-- The dict shapes returned by `analyze_tone_and_stance`. -/
inductive ToneResult (α : Type) where
  | apiError
  | parsed (r : ParseResult α)
  | analysisFailed (msg : String)
  deriving DecidableEq

/-- Model of `analyze_tone_and_stance(text)` (source lines 364-397); the prompt
template is absorbed into `chat`. -/
def analyze_tone_and_stance {α : Type} (openai_ok clientIsNone : Bool)
    (chat : String → Except String String) (loads : Str → Except String α)
    (text : String) : ToneResult α :=
  if !openai_ok || clientIsNone then .apiError
  else
    match chat text with
    | .ok r => .parsed (parse_gpt_json_response loads (pyStripS r).data)
    | .error e => .analysisFailed ("분석 실패: " ++ e)

/-- The `assessment` text of the canned insufficient-input record
(source line 456, with the reflection text interpolated). -/
def cannedAssessment (t : String) : String :=
  "성찰 내용이 \"" ++ t ++
  "\"라는 한 단어로만 제공되어 있어, 학습자의 문제해결 역량을 평가하기에는 정보가 부족합니다. 성찰 내용에 대한 구체적인 정보가 필요합니다. 예를 들어, 학습자가 어떤 문제를 다루었는지, 그 문제를 어떻게 이해하고 분석했는지, 어떤 대안을 발견하고 실행 계획을 수립했는지, 그리고 의사소통을 어떻게 했는지에 대한 자세한 설명이 필요합니다.\n\n현재 제공된 정보로는 평가를 진행할 수 없으므로, 추가적인 성찰 내용을 제공해 주시면 감사하겠습니다."

/-- The dict shapes returned by `assess_problem_solving`. -/
inductive AssessResult (α : Type) where
  | apiError
  | insufficient (assessment : String)
  | parsed (r : ParseResult α)
  | evalFailed (msg : String)
  deriving DecidableEq

/-- Model of `assess_problem_solving(reflection_text)` (source lines 448-499); the
prompt template is absorbed into `chat`. -/
def assess_problem_solving {α : Type} (openai_ok clientIsNone : Bool)
    (chat : String → Except String String) (loads : Str → Except String α)
    (reflection_text : String) : AssessResult α :=
  if !openai_ok || clientIsNone then .apiError
  else if reflection_text = "" ∨ (pyStripS reflection_text).length < 10 then
    .insufficient (cannedAssessment reflection_text)
  else
    match chat reflection_text with
    | .ok result => .parsed (parse_gpt_json_response loads (pyStripS result).data)
    | .error e => .evalFailed ("평가 실패: " ++ e)

/-- C7: with the collaborator configured, `assess_problem_solving`
short-circuits to the canned insufficient-input record for every
reflection whose trimmed length is under 10 characters — for every
collaborator behaviour, i.e. without invoking it — and for trimmed length
at least 10 it runs the collaborator path and parses its output. -/
theorem assess_short_input_short_circuits {α : Type}
    (loads : Str → Except String α) (t : String) :
    ((pyStripS t).length < 10 →
      ∀ chat, assess_problem_solving true false chat loads t
        = .insufficient (cannedAssessment t)) ∧
    (10 ≤ (pyStripS t).length →
      ∀ chat r, chat t = .ok r →
        assess_problem_solving true false chat loads t
          = .parsed (parse_gpt_json_response loads (pyStripS r).data)) := by
  constructor
  · intro h chat
    unfold assess_problem_solving
    rw [if_neg (by simp), if_pos (Or.inr h)]
  · intro h chat r hr
    unfold assess_problem_solving
    rw [if_neg (by simp), if_neg ?_, hr]
    rintro (he | hlt)
    · rw [he] at h
      exact absurd h (by decide)
    · omega

/-- Witness for C7: `"ok"` (2 characters) gets the canned record under
every collaborator; a long reflection reaches the collaborator path. -/
theorem assess_short_input_short_circuits_witness :
    assess_problem_solving true false (fun _ => Except.error "e")
        (fun _ => (Except.error "d" : Except String Nat)) "ok"
      = .insufficient (cannedAssessment "ok") ∧
    assess_problem_solving true false (fun _ => Except.ok "done")
        (fun _ => (Except.error "d" : Except String Nat))
        "이번 과제에서는 두 기사의 논조 차이를 비교하고 분석하면서 많은 것을 배웠습니다"
      = .parsed (parse_gpt_json_response
          (fun _ => (Except.error "d" : Except String Nat)) (pyStripS "done").data) :=
  ⟨(assess_short_input_short_circuits _ "ok").1 (by decide) _,
   (assess_short_input_short_circuits _ _).2 (by decide) _ "done" rfl⟩

/-- C9: the availability check precedes the short-input check: with no API
credential, `assess_problem_solving` returns the API-error record for
every input (including short ones), and the canned insufficient-input
record is reachable only with the collaborator configured. -/
theorem assess_requires_api {α : Type} (cn : Bool)
    (chat : String → Except String String) (loads : Str → Except String α)
    (t : String) :
    assess_problem_solving false cn chat loads t = .apiError ∧
    (∀ ok cn' m, assess_problem_solving ok cn' chat loads t = .insufficient m →
      ok = true ∧ cn' = false) := by
  constructor
  · unfold assess_problem_solving
    rw [if_pos (by simp)]
  · intro ok cn' m h
    cases ok with
    | false =>
      rw [show assess_problem_solving false cn' chat loads t = .apiError by
        unfold assess_problem_solving; rw [if_pos (by simp)]] at h
      exact absurd h (by simp)
    | true =>
      cases cn' with
      | true =>
        rw [show assess_problem_solving true true chat loads t = .apiError by
          unfold assess_problem_solving; rw [if_pos (by simp)]] at h
        exact absurd h (by simp)
      | false => exact ⟨rfl, rfl⟩

/-- Witness for C9: the 2-character input `"ok"` yields the API-error
record, not the canned record, when no credential is configured. -/
theorem assess_requires_api_witness :
    assess_problem_solving false false (fun _ => Except.error "e")
        (fun _ => (Except.error "d" : Except String Nat)) "ok"
      = .apiError ∧
    (true = true ∧ false = false) :=
  ⟨(assess_requires_api false (fun _ => Except.error "e")
      (fun _ => (Except.error "d" : Except String Nat)) "ok").1,
   (assess_requires_api false (fun _ => Except.error "e")
      (fun _ => (Except.error "d" : Except String Nat)) "ok").2 true false
      (cannedAssessment "ok") rfl⟩

/-- C10: `translate_to_korean` propagates upstream summary failures
without calling the collaborator: any text containing `"요약 실패"` or
`"요약 불가"` yields the fixed string under every collaborator, while the
API-availability guard still takes precedence when unconfigured. -/
theorem translate_propagates_summary_failure (text : String)
    (hfail : (containsSubS "요약 실패" text || containsSubS "요약 불가" text) = true) :
    (∀ chat, translate_to_korean true false chat text
      = "원본 요약이 없어 번역할 수 없습니다.") ∧
    (∀ cn chat, translate_to_korean false cn chat text = "번역 불가: API 오류") := by
  constructor
  · intro chat
    unfold translate_to_korean
    rw [if_neg (by simp), if_pos hfail]
  · intro cn chat
    unfold translate_to_korean
    rw [if_pos (by simp)]

/-- Witness for C10 at the failed-summary text `"요약 실패: boom"`. -/
theorem translate_propagates_summary_failure_witness :
    translate_to_korean true false (fun _ => Except.ok "번역문") "요약 실패: boom"
      = "원본 요약이 없어 번역할 수 없습니다." ∧
    translate_to_korean false true (fun _ => Except.ok "번역문") "요약 실패: boom"
      = "번역 불가: API 오류" :=
  ⟨(translate_propagates_summary_failure "요약 실패: boom" (by decide)).1 _,
   (translate_propagates_summary_failure "요약 실패: boom" (by decide)).2 true _⟩

/-- The wizard stages, in the order of `progress_stages`
(`["input", "analysis", "draft", "feedback", "final"]`). -/
inductive Stage where
  | input | analysis | draft | feedback | final
  deriving DecidableEq

/-- The typed view of the per-session keys initialised at source lines
739-754.  `τ` is the type of the dict-valued analysis fields; the
reflection log entries are `(stage, content)` pairs (the wall-clock
`timestamp` field is outside the model).  The transient widget keys
(`article1_input`, …) are modelled as the explicit arguments of the
button handlers below. -/
structure Session (τ : Type) where
  stage : Stage
  article1 : String
  article2 : String
  summary1 : String
  summary2 : String
  summary1_kr : String
  summary2_kr : String
  tone_analysis1 : τ
  tone_analysis2 : τ
  draft : String
  feedback : String
  writing_evaluation : τ
  problem_solving_score : τ
  reflection_log : List (String × String)
  final_text : String
  paragraph_feedback : List (String × τ)
  self_assessment : Option τ
  enhanced_feedback : String
  deriving DecidableEq

/-- The `st.session_state.update(\x7b...\x7d)` initial values (lines 740-754);
`d` is the empty dict `\x7b\x7d` at type `τ`. -/
def initSession {τ : Type} (d : τ) : Session τ :=
  { stage := .input
    article1 := "", article2 := ""
    summary1 := "", summary2 := ""
    summary1_kr := "", summary2_kr := ""
    tone_analysis1 := d, tone_analysis2 := d
    draft := "", feedback := ""
    writing_evaluation := d, problem_solving_score := d
    reflection_log := []
    final_text := ""
    paragraph_feedback := []
    self_assessment := none
    enhanced_feedback := "" }

/-- The Input-stage advance button (source lines 809-830): `article1` and
`article2` are the two text-area widget values.  Returns the new session
and the list of error messages surfaced (field placeholders plus the
overall message). -/
def inputAdvance {τ : Type} (s : Session τ) (article1 article2 : String) :
    Session τ × List String :=
  if s.stage = .input then
    if pyStripS article1 = "" ∨ pyStripS article2 = "" then
      (s, (if pyStripS article1 = "" then ["기사 1 본문을 입력해주세요."] else [])
          ++ (if pyStripS article2 = "" then ["기사 2 본문을 입력해주세요."] else [])
          ++ ["모든 필수 입력 필드를 채워주세요."])
    else
      ({ s with article1 := article1, article2 := article2, stage := .analysis }, [])
  else (s, [])

/-- The Analysis-page entry block (source lines 836-845): recompute the
two summaries, the two tone analyses and the two Korean translations
exactly when the cached `summary1` is falsy (the empty string). -/
def analysisEntry {τ : Type} (summarize : String → String)
    (analyzeTone : String → τ) (translateKo : String → String)
    (s : Session τ) : Session τ :=
  if s.stage = .analysis then
    if s.summary1 = "" then
      { s with
        summary1 := summarize s.article1
        summary2 := summarize s.article2
        tone_analysis1 := analyzeTone s.article1
        tone_analysis2 := analyzeTone s.article2
        summary1_kr := translateKo (summarize s.article1)
        summary2_kr := translateKo (summarize s.article2) }
    else s
  else s

/-- The Analysis-page back button (source lines 909-911): returns to
Input without clearing anything. -/
def backToInput {τ : Type} (s : Session τ) : Session τ :=
  if s.stage = .analysis then { s with stage := .input } else s

/-- C3: from the Input stage, the advance action succeeds — storing both
widget texts and moving to Analysis with no message — iff both texts are
non-empty after trimming; otherwise the session is unchanged and at least
one message is surfaced. -/
theorem input_advance_validation {τ : Type} (s : Session τ) (a1 a2 : String)
    (hs : s.stage = .input) :
    (pyStripS a1 ≠ "" ∧ pyStripS a2 ≠ "" →
      inputAdvance s a1 a2
        = ({ s with article1 := a1, article2 := a2, stage := .analysis }, [])) ∧
    (pyStripS a1 = "" ∨ pyStripS a2 = "" →
      (inputAdvance s a1 a2).1 = s ∧ (inputAdvance s a1 a2).2 ≠ []) := by
  constructor
  · rintro ⟨h1, h2⟩
    unfold inputAdvance
    rw [if_pos hs, if_neg (by tauto)]
  · intro h
    unfold inputAdvance
    rw [if_pos hs, if_pos h]
    refine ⟨rfl, ?_⟩
    simp

/-- The session expected after a successful Input advance on `("A", "B")`. -/
def wexAdvanced : Session Unit :=
  { initSession () with article1 := "A", article2 := "B", stage := .analysis }

/-- Witness for C3: success on `("A", "B")`, failure on `("", "B")` with
an unchanged session and a non-empty message list. -/
theorem input_advance_validation_witness :
    inputAdvance (initSession ()) "A" "B" = (wexAdvanced, []) ∧
    ((inputAdvance (initSession ()) "" "B").1 = initSession () ∧
      (inputAdvance (initSession ()) "" "B").2 ≠ []) :=
  ⟨(input_advance_validation (initSession ()) "A" "B" rfl).1 (by decide),
   (input_advance_validation (initSession ()) "" "B" rfl).2 (by decide)⟩

/-- C5 counterexample scaffolding: a collaborator whose first summary is
the empty string (an empty model completion stripped to `""`), built from
the modelled `summarize_text` / `analyze_tone_and_stance` /
`translate_to_korean` themselves. -/
def cexChatSum : String → Except String String := fun p =>
  if p = "다음 기사 내용을 영어로 다섯 문장 이상, 열문장 이하로 요약해줘:\n\nA" then Except.ok ""
  else Except.ok "S"

def cexSummarize : String → String := summarize_text true false cexChatSum

def cexTone : String → ToneResult String :=
  analyze_tone_and_stance true false (fun t => Except.ok t)
    (fun s => Except.ok (String.mk s))

def cexTranslate : String → String :=
  translate_to_korean true false (fun _ => Except.ok "K")

/-- First pass: articles `"A"`, `"B"` entered and analysed. -/
def cexRun1 : Session (ToneResult String) :=
  analysisEntry cexSummarize cexTone cexTranslate
    (inputAdvance (initSession ToneResult.apiError) "A" "B").1

/-- Second pass: back to Input, article 1 edited to `"A2"`, re-analysed. -/
def cexRun2 : Session (ToneResult String) :=
  analysisEntry cexSummarize cexTone cexTranslate
    (inputAdvance (backToInput cexRun1) "A2" "B").1

/-- C5 counterexample: when the first computed summary is the empty string
(the cache guard tests only the truthiness of `summary1`), re-entering
Analysis after editing article 1 recomputes and changes both the cached
summary and the cached tone analysis. -/
theorem analysis_cache_counterexample :
    cexRun1.summary1 = "" ∧
    cexRun2.summary1 = "S" ∧
    cexRun2.summary1 ≠ cexRun1.summary1 ∧
    cexRun2.tone_analysis1 ≠ cexRun1.tone_analysis1 := by
  decide

/-- C5 (amended): provided the first computed `summary1` is non-empty (as
on every failure path of `summarize_text`, which returns non-empty error
strings), entering Analysis computes the six cached fields from the
then-current articles, and re-entering after going back and editing the
articles leaves all six cached values unchanged. -/
theorem analysis_cache_stable {τ : Type} (summarize : String → String)
    (analyzeTone : String → τ) (translateKo : String → String)
    (s : Session τ) (a1 a2 : String)
    (hst : s.stage = .analysis)
    (h0 : s.summary1 = "")
    (hne : summarize s.article1 ≠ "")
    (h1 : pyStripS a1 ≠ "") (h2 : pyStripS a2 ≠ "") :
    ∀ s1 s2 s3 : Session τ,
      s1 = analysisEntry summarize analyzeTone translateKo s →
      s2 = (inputAdvance (backToInput s1) a1 a2).1 →
      s3 = analysisEntry summarize analyzeTone translateKo s2 →
      s1.summary1 = summarize s.article1 ∧
      s1.tone_analysis1 = analyzeTone s.article1 ∧
      s3.summary1 = s1.summary1 ∧ s3.summary2 = s1.summary2 ∧
      s3.summary1_kr = s1.summary1_kr ∧ s3.summary2_kr = s1.summary2_kr ∧
      s3.tone_analysis1 = s1.tone_analysis1 ∧
      s3.tone_analysis2 = s1.tone_analysis2 := by
  intro s1 s2 s3 e1 e2 e3
  subst e1
  subst e2
  subst e3
  simp only [analysisEntry, backToInput, inputAdvance]
  simp [hst, h0, hne, h1, h2]

/-- The concrete session used by the witness for the amended C5. -/
def wexSession : Session Unit :=
  { initSession () with stage := Stage.analysis, article1 := "A", article2 := "B" }

/-- Witness for the amended C5 at a concrete collaborator and session. -/
theorem analysis_cache_stable_witness :
    (analysisEntry (fun t => "S" ++ t) (fun _ => ()) (fun t => "K" ++ t)
        (inputAdvance
          (backToInput (analysisEntry (fun t => "S" ++ t) (fun _ => ())
            (fun t => "K" ++ t) wexSession)) "A2" "B").1).summary1
      = (analysisEntry (fun t => "S" ++ t) (fun _ => ()) (fun t => "K" ++ t)
          wexSession).summary1 :=
  (analysis_cache_stable (fun t => "S" ++ t) (fun _ => ()) (fun t => "K" ++ t)
    wexSession "A2" "B" rfl rfl (by decide) (by decide) (by decide)
    _ _ _ rfl rfl rfl).2.2.1

/-- The five fixed paragraph slots of the Draft stage. -/
inductive Slot where
  | intro | body1 | body2 | compare | conclusion
  deriving DecidableEq

/-- The section header prefixed to each slot in `full_draft`
(source lines 1069-1075). -/
def slotHeader : Slot → String
  | .intro => "[서론]"
  | .body1 => "[본론 1 - 기사 1]"
  | .body2 => "[본론 2 - 기사 2]"
  | .compare => "[비교 분석]"
  | .conclusion => "[결론]"

/-- Python `sep.join(parts)`. -/
def pyJoin (sep : String) : List String → String
  | [] => ""
  | [x] => x
  | x :: y :: rest => x ++ sep ++ pyJoin sep (y :: rest)

/-- Model of `full_draft` (source lines 1069-1075): the `"\n\n"`-join of the five
labeled slots, read from the current slot texts `m` in fixed order. -/
def full_draft (m : Slot → String) : String :=
  pyJoin "\n\n"
    [slotHeader .intro ++ "\n" ++ m .intro,
     slotHeader .body1 ++ "\n" ++ m .body1,
     slotHeader .body2 ++ "\n" ++ m .body2,
     slotHeader .compare ++ "\n" ++ m .compare,
     slotHeader .conclusion ++ "\n" ++ m .conclusion]

/-- Write the text-area value of one slot. -/
def fillSlot (m : Slot → String) (sl : Slot) (t : String) : Slot → String :=
  fun x => if x = sl then t else m x

/-- A sequence of slot writes, applied left to right. -/
def applyFills (m : Slot → String) : List (Slot × String) → Slot → String
  | [] => m
  | (sl, t) :: rest => applyFills (fillSlot m sl t) rest

lemma applyFills_not_mem (fills : List (Slot × String)) (sl : Slot) :
    ∀ m : Slot → String, (∀ p ∈ fills, p.1 ≠ sl) → applyFills m fills sl = m sl := by
  induction fills with
  | nil => intro m _; rfl
  | cons p rest ih =>
    intro m h
    obtain ⟨q, t⟩ := p
    have hq : q ≠ sl := h (q, t) (by simp)
    rw [show applyFills m ((q, t) :: rest) sl
        = applyFills (fillSlot m q t) rest sl from rfl,
      ih (fillSlot m q t) (fun r hr => h r (by simp [hr]))]
    simp [fillSlot, Ne.symm hq]

lemma applyFills_mem (v : Slot → String) (order : List Slot) (sl : Slot) :
    ∀ m : Slot → String, sl ∈ order →
      applyFills m (order.map (fun x => (x, v x))) sl = v sl := by
  induction order with
  | nil => intro m h; cases h
  | cons o rest ih =>
    intro m h
    by_cases hmem : sl ∈ rest
    · exact ih (fillSlot m o (v o)) hmem
    · have ho : sl = o := by
        rcases List.mem_cons.mp h with h' | h'
        · exact h'
        · exact absurd h' hmem
      subst ho
      rw [show applyFills m ((sl :: rest).map (fun x => (x, v x))) sl
          = applyFills (fillSlot m sl (v sl)) (rest.map (fun x => (x, v x))) sl
          from rfl,
        applyFills_not_mem _ _ _ (by
          intro p hp
          obtain ⟨x, hx, rfl⟩ := List.mem_map.mp hp
          intro hc
          exact hmem (hc ▸ hx))]
      simp [fillSlot]

/-- C6: whatever the order (and multiplicity) of the slot writes, as long
as every slot was last written with its value `v`, the assembled draft is
exactly the five labeled slots in the fixed order
`intro, body1, body2, compare, conclusion`, each prefixed by its section
header and separated by a blank line. -/
theorem full_draft_fixed_order (m0 v : Slot → String) (order : List Slot)
    (hcov : ∀ sl : Slot, sl ∈ order) :
    full_draft (applyFills m0 (order.map (fun sl => (sl, v sl))))
      = slotHeader .intro ++ "\n" ++ v .intro ++ "\n\n"
        ++ slotHeader .body1 ++ "\n" ++ v .body1 ++ "\n\n"
        ++ slotHeader .body2 ++ "\n" ++ v .body2 ++ "\n\n"
        ++ slotHeader .compare ++ "\n" ++ v .compare ++ "\n\n"
        ++ slotHeader .conclusion ++ "\n" ++ v .conclusion := by
  have h : ∀ sl : Slot,
      applyFills m0 (order.map (fun x => (x, v x))) sl = v sl :=
    fun sl => applyFills_mem v order sl m0 (hcov sl)
  simp only [full_draft, pyJoin, h]
  simp [String.append_assoc]

/-- The slot values used by the C6 witness. -/
def slotWitnessVals : Slot → String
  | .intro => "A"
  | .body1 => "B"
  | .body2 => "C"
  | .compare => "D"
  | .conclusion => "E"

/-- Witness for C6: the five slots filled out of order still assemble in
the fixed labeled order. -/
theorem full_draft_fixed_order_witness :
    full_draft (applyFills (fun _ => "")
        ([Slot.conclusion, Slot.intro, Slot.compare, Slot.body1, Slot.body2].map
          (fun sl => (sl, slotWitnessVals sl))))
      = "[서론]\nA\n\n[본론 1 - 기사 1]\nB\n\n[본론 2 - 기사 2]\nC\n\n[비교 분석]\nD\n\n[결론]\nE" :=
  (full_draft_fixed_order (fun _ => "") slotWitnessVals
    [Slot.conclusion, Slot.intro, Slot.compare, Slot.body1, Slot.body2]
    (fun sl => by cases sl <;> simp)).trans (by decide)

/-- Untyped Python values held in `st.session_state`, as far as the
initialisation block needs. -/
inductive PyVal where
  | str (s : String)
  | list (l : List PyVal)
  | dict (l : List (String × PyVal))
  | pynone

/-- `st.session_state` as a key-value map. -/
abbrev SessionMap := List (String × PyVal)

/-- Key lookup; `none` means the key is absent (an attribute access on it
would raise). -/
def lookupKey : SessionMap → String → Option PyVal
  | [], _ => none
  | (k', v) :: rest, k => if k' = k then some v else lookupKey rest k

/-- The `st.session_state.update(\x7b...\x7d)` block (source lines 739-754),
run only when the key `"stage"` is absent.  These are the zero-values of
the fields. -/
def initSessionMap : SessionMap :=
  [("stage", .str "input"),
   ("article1", .str ""), ("article2", .str ""),
   ("summary1", .str ""), ("summary2", .str ""),
   ("summary1_kr", .str ""), ("summary2_kr", .str ""),
   ("tone_analysis1", .dict []), ("tone_analysis2", .dict []),
   ("draft", .str ""), ("feedback", .str ""),
   ("writing_evaluation", .dict []),
   ("problem_solving_score", .dict []),
   ("reflection_log", .list []),
   ("final_text", .str ""),
   ("paragraph_feedback", .dict []),
   ("self_assessment", .pynone),
   ("enhanced_feedback", .str "")]

/-- The restart button handler (source lines 1394-1401): pop every key
except `"stage"`, then set `stage` to `"input"`.  Whatever the prior
state, the resulting map holds only the `"stage"` key. -/
def restartState (_s : SessionMap) : SessionMap := [("stage", PyVal.str "input")]

/-- Which stage branches render the restart button: only the Final page
(source line 1395); no other stage offers a restart action. -/
def restartAvailable : Stage → Bool
  | .final => true
  | _ => false

/-- C4 counterexample: restart is not offered in the Input stage, and
after a restart the `reflection_log` key is absent rather than equal to
its zero-value `[]` (so the claim fails as stated on both counts). -/
theorem restart_counterexample :
    restartAvailable Stage.input = false ∧
    lookupKey (restartState initSessionMap) "reflection_log" = none ∧
    lookupKey initSessionMap "reflection_log" = some (PyVal.list []) :=
  ⟨rfl, rfl, rfl⟩

/-- C4 (amended): restart is offered only in the Final stage; it sets
`stage` to `"input"` and removes every other key outright, so a
subsequent defaulted read (`st.session_state.get(key, default)`) yields
the default, while the keys themselves are left uninitialised. -/
theorem restart_resets (s : SessionMap) (k : String) (hk : k ≠ "stage") :
    lookupKey (restartState s) "stage" = some (PyVal.str "input") ∧
    lookupKey (restartState s) k = none ∧
    (∀ d : PyVal, (lookupKey (restartState s) k).getD d = d) := by
  have habs : lookupKey (restartState s) k = none := by
    unfold restartState lookupKey
    rw [if_neg (Ne.symm hk)]
    rfl
  exact ⟨rfl, habs, fun d => by rw [habs]; rfl⟩

/-- Witness for the amended C4 at the initial state and the key
`"article1"`. -/
theorem restart_resets_witness :
    lookupKey (restartState initSessionMap) "stage" = some (PyVal.str "input") ∧
    lookupKey (restartState initSessionMap) "article1" = none ∧
    (∀ d : PyVal, (lookupKey (restartState initSessionMap) "article1").getD d = d) :=
  restart_resets initSessionMap "article1" (by decide)

end NewsWrt
